import Mathlib

/-!
# ML2NativeRecorder: the head-pose bridge of `native-lib.cpp`

A shallow embedding of the three JNI entry points of
`ML2NativeRecorder/app/src/main/cpp/native-lib.cpp`
(`nativeInit`, `nativeShutdown`, `nativePoseAtMLTime`) together with `LogML`.

* The three file-level globals `g_ready`, `g_head`, `g_head_cf` become the
  fields of `Session`, passed explicitly.
* Every call into the perception subsystem is an `Event` appended to the trace
  of the entry point, in program order; what the subsystem answers during one
  call of an entry point is supplied by an answers record
  (`InitAnswers`, `ShutdownAnswers`, `QueryAnswers`), so a statement quantified
  over the answers covers every behaviour of the collaborator.
* `float` values are only ever copied, never computed with, so a `float` is
  represented by its IEEE-754 binary32 bit pattern.
* The `jfloatArray` handed back to the JVM is represented by the 16 values
  written into it by `SetFloatArrayRegion`; the JVM allocation itself is taken
  to succeed.
* Every entry point holds `g_mu` from its first to its last statement, so each
  one is a single atomic transition here.
-/

namespace ML2NativeRecorder

/-! ## Types and constants of the perception headers -/

/-- Modelled from the spec: the result code of a subsystem call (`MLResult` of
`ml_api.h`, which is not among the sources), a 32-bit enumeration kept as an
integer. -/
abbrev MLResult := Int

/-- Modelled from the spec: the success code `MLResult_Ok` of `ml_api.h`
(not among the sources). The code only compares results with it; no proof below
depends on its numeric value. -/
def MLResult_Ok : MLResult := 0

/-- Modelled from the spec: an opaque subsystem handle (`MLHandle` of
`ml_api.h`, not among the sources), a 64-bit unsigned value. -/
abbrev MLHandle := Nat

/-- Modelled from the spec: the invalid-handle sentinel `ML_INVALID_HANDLE` of
`ml_api.h` (not among the sources), the all-ones 64-bit value. The code only
compares handles with it; no proof below depends on its numeric value beyond
its being different from the sample handle `7`. -/
def ML_INVALID_HANDLE : MLHandle := 0xFFFFFFFFFFFFFFFF

/-- Modelled from the spec: the opaque coordinate-frame identifier
(`MLCoordinateFrameUID` of `ml_types.h`, not among the sources): two 64-bit
words. -/
structure MLCoordinateFrameUID where
  data0 : Nat
  data1 : Nat
deriving DecidableEq, Repr

/-- A C `float`, represented by its IEEE-754 binary32 bit pattern. -/
abbrev jfloat := Nat

/-- The bit pattern of `0.0f`, the value of every slot of `float buf[16]{}`. -/
def f32_zero : jfloat := 0x00000000

/-- The bit pattern of `1.0f`. -/
def f32_one : jfloat := 0x3F800000

/-- Modelled from the spec: three real-valued coordinates (`MLVec3f` of
`ml_types.h`, not among the sources). -/
structure MLVec3f where
  x : jfloat
  y : jfloat
  z : jfloat
deriving DecidableEq, Repr

/-- Modelled from the spec: a quaternion (`MLQuaternionf` of `ml_types.h`,
not among the sources). -/
structure MLQuaternionf where
  x : jfloat
  y : jfloat
  z : jfloat
  w : jfloat
deriving DecidableEq, Repr

/-- Modelled from the spec: position and orientation (`MLTransform` of
`ml_types.h`, not among the sources). -/
structure MLTransform where
  rotation : MLQuaternionf
  position : MLVec3f
deriving DecidableEq, Repr

/-- Modelled from the spec: the first derivatives of a transform
(`MLTransformDerivatives` of `ml_types.h`, not among the sources). -/
structure MLTransformDerivatives where
  linear_velocity_m_s : MLVec3f
  angular_velocity_r_s : MLVec3f
deriving DecidableEq, Repr

/-- A `MLSnapshot*`: an address, `0` being `nullptr`. -/
abbrev MLSnapshotPtr := Nat

/-- The null pointer. -/
def nullptr : MLSnapshotPtr := 0

/-! ## Diagnostics and observable events -/

/-- One line handed to `__android_log_print` under the tag `native-lib`. -/
inductive LogRecord where
  /-- `LOGI`: an informational line with its text. -/
  | info (text : String)
  /-- `LOGE("%s failed: r=%d (%s)", what, (int)r, MLSnapshotGetResultString(r))`:
  an error line with the operation, the numeric code and its description. -/
  | error (what : String) (code : Int) (description : String)
deriving DecidableEq, Repr

/-- What an entry point does that is visible outside it, in program order. -/
inductive Event where
  | MLPerceptionInitSettings (r : MLResult)
  | MLPerceptionStartup (r : MLResult)
  | MLHeadTrackingCreate (r : MLResult) (out : Option MLHandle)
  | MLHeadTrackingGetStaticData (h : MLHandle) (r : MLResult)
  | MLHeadTrackingDestroy (h : MLHandle)
  | MLPerceptionShutdown (r : MLResult)
  | MLPerceptionGetPredictedSnapshot (t : Int) (r : MLResult) (snap : MLSnapshotPtr)
  | MLSnapshotGetTransformWithDerivatives (snap : MLSnapshotPtr)
      (cf : MLCoordinateFrameUID) (r : MLResult)
  | MLPerceptionReleaseSnapshot (snap : MLSnapshotPtr)
  | log (l : LogRecord)
deriving DecidableEq, Repr

/-- `LogML` (native-lib.cpp:18-26). `resultString` is the subsystem's
`MLSnapshotGetResultString`. -/
def LogML (resultString : MLResult → String) (what : String) (r : MLResult) : List Event :=
  if r = MLResult_Ok then
    [Event.log (LogRecord.info (what ++ " OK"))]
  else
    [Event.log (LogRecord.error what r (resultString r))]

/-! ## Session state -/

/-- The globals `g_ready`, `g_head`, `g_head_cf` (native-lib.cpp:14-16). -/
structure Session where
  g_ready : Bool
  g_head : MLHandle
  g_head_cf : MLCoordinateFrameUID
deriving DecidableEq, Repr

/-- The values of the globals at load time: `false`, `ML_INVALID_HANDLE`, `{}`. -/
def Session.fresh : Session :=
  { g_ready := false, g_head := ML_INVALID_HANDLE, g_head_cf := ⟨0, 0⟩ }

/-- What one call of an entry point yields: the value returned to the caller,
the globals afterwards and the events of the call. -/
structure Ran (α : Type) where
  ret : α
  session : Session
  events : List Event
deriving Repr

/-! ## nativeInit -/

/-- What the subsystem answers during one `nativeInit`. `createOut` is the value
`MLHeadTrackingCreate` stores through `&g_head` (`none`: it stores nothing);
`coord_frame_head` is `sd.coord_frame_head` after `MLHeadTrackingGetStaticData`. -/
structure InitAnswers where
  initSettings : MLResult
  startup : MLResult
  create : MLResult
  createOut : Option MLHandle
  staticData : MLResult
  coord_frame_head : MLCoordinateFrameUID
deriving DecidableEq, Repr

/-- `Java_com_example_ml2nativerecorder_Recorder_nativeInit`
(native-lib.cpp:36-63). -/
def nativeInit (resultString : MLResult → String) (a : InitAnswers) (s : Session) : Ran Bool :=
  if s.g_ready then ⟨true, s, []⟩
  else
    let r := a.initSettings
    let ev1 := [Event.MLPerceptionInitSettings r] ++ LogML resultString "MLPerceptionInitSettings" r
    if r ≠ MLResult_Ok then ⟨false, s, ev1⟩
    else
      let r := a.startup
      let ev2 := ev1 ++ [Event.MLPerceptionStartup r] ++ LogML resultString "MLPerceptionStartup" r
      if r ≠ MLResult_Ok then ⟨false, s, ev2⟩
      else
        let r := a.create
        let s3 : Session := { s with g_head := a.createOut.getD s.g_head }
        let ev3 := ev2 ++ [Event.MLHeadTrackingCreate r a.createOut]
          ++ LogML resultString "MLHeadTrackingCreate" r
        if r ≠ MLResult_Ok ∨ s3.g_head = ML_INVALID_HANDLE then ⟨false, s3, ev3⟩
        else
          let r := a.staticData
          let ev4 := ev3 ++ [Event.MLHeadTrackingGetStaticData s3.g_head r]
            ++ LogML resultString "MLHeadTrackingGetStaticData" r
          if r ≠ MLResult_Ok then ⟨false, s3, ev4⟩
          else
            let s5 : Session := { s3 with g_head_cf := a.coord_frame_head }
            let s6 : Session := { s5 with g_ready := true }
            ⟨true, s6, ev4 ++ [Event.log (LogRecord.info "nativeInit OK")]⟩

/-! ## nativeShutdown -/

/-- What the subsystem answers during one `nativeShutdown`: the result of
`MLHeadTrackingDestroy` (discarded by the caller) and of `MLPerceptionShutdown`. -/
structure ShutdownAnswers where
  destroy : MLResult
  shutdown : MLResult
deriving DecidableEq, Repr

/-- `Java_com_example_ml2nativerecorder_Recorder_nativeShutdown`
(native-lib.cpp:67-80). -/
def nativeShutdown (resultString : MLResult → String) (a : ShutdownAnswers) (s : Session) :
    Ran Unit :=
  if ¬ s.g_ready then ⟨(), s, []⟩
  else
    let s1 : Session :=
      if s.g_head ≠ ML_INVALID_HANDLE then { s with g_head := ML_INVALID_HANDLE } else s
    let ev1 : List Event :=
      if s.g_head ≠ ML_INVALID_HANDLE then [Event.MLHeadTrackingDestroy s.g_head] else []
    let r := a.shutdown
    let ev2 := ev1 ++ [Event.MLPerceptionShutdown r] ++ LogML resultString "MLPerceptionShutdown" r
    let s2 : Session := { s1 with g_ready := false }
    ⟨(), s2, ev2 ++ [Event.log (LogRecord.info "nativeShutdown OK")]⟩

/-! ## nativePoseAtMLTime -/

/-- What the subsystem answers during one `nativePoseAtMLTime`: the result of
`MLPerceptionGetPredictedSnapshot` and the pointer it leaves in `snap`
(`nullptr` when it stores nothing), then the result of
`MLSnapshotGetTransformWithDerivatives` and the contents of `t` and `d` after
it. -/
structure QueryAnswers where
  acquire : MLResult
  snap : MLSnapshotPtr
  read : MLResult
  t : MLTransform
  d : MLTransformDerivatives
deriving DecidableEq, Repr

/-- The local `float buf[16]{}`: sixteen zeroes. -/
def zeroBuf : List jfloat := List.replicate 16 f32_zero

/-- `Java_com_example_ml2nativerecorder_Recorder_nativePoseAtMLTime`
(native-lib.cpp:84-133). The returned list is the content of the 16-element
array `out`. -/
def nativePoseAtMLTime (resultString : MLResult → String) (a : QueryAnswers) (s : Session)
    (ml_time : Int) : Ran (List jfloat) :=
  let buf := zeroBuf
  if ¬ s.g_ready then ⟨buf, s, []⟩
  else
    let snap := a.snap
    let r := a.acquire
    let ev1 := [Event.MLPerceptionGetPredictedSnapshot ml_time r snap]
    if r ≠ MLResult_Ok ∨ snap = nullptr then
      ⟨buf, s, ev1 ++ LogML resultString "MLPerceptionGetPredictedSnapshot" r⟩
    else
      let t := a.t
      let d := a.d
      let r := a.read
      let ev2 := ev1 ++ [Event.MLSnapshotGetTransformWithDerivatives snap s.g_head_cf r]
        ++ [Event.MLPerceptionReleaseSnapshot snap]
      if r ≠ MLResult_Ok then
        ⟨buf, s, ev2 ++ LogML resultString "MLSnapshotGetTransformWithDerivatives" r⟩
      else
        let buf := buf.set 0 t.position.x
        let buf := buf.set 1 t.position.y
        let buf := buf.set 2 t.position.z
        let buf := buf.set 3 t.rotation.x
        let buf := buf.set 4 t.rotation.y
        let buf := buf.set 5 t.rotation.z
        let buf := buf.set 6 t.rotation.w
        let buf := buf.set 7 d.linear_velocity_m_s.x
        let buf := buf.set 8 d.linear_velocity_m_s.y
        let buf := buf.set 9 d.linear_velocity_m_s.z
        let buf := buf.set 10 d.angular_velocity_r_s.x
        let buf := buf.set 11 d.angular_velocity_r_s.y
        let buf := buf.set 12 d.angular_velocity_r_s.z
        let buf := buf.set 13 f32_one
        ⟨buf, s, ev2⟩

/-! ## Sequences of calls -/

/-- One call of an entry point by the caller, with the subsystem's answers
during it. -/
inductive Op where
  | init (a : InitAnswers)
  | shutdown (a : ShutdownAnswers)
  | query (ml_time : Int) (a : QueryAnswers)
deriving DecidableEq, Repr

/-- The globals after one call, and the events of the call. -/
def step (resultString : MLResult → String) (s : Session) : Op → Session × List Event
  | Op.init a => ((nativeInit resultString a s).session, (nativeInit resultString a s).events)
  | Op.shutdown a =>
      ((nativeShutdown resultString a s).session, (nativeShutdown resultString a s).events)
  | Op.query t a =>
      ((nativePoseAtMLTime resultString a s t).session,
        (nativePoseAtMLTime resultString a s t).events)

/-- The globals after a sequence of calls made one after the other, and the
events of all of them in order. -/
def run (resultString : MLResult → String) (s : Session) : List Op → Session × List Event
  | [] => (s, [])
  | op :: ops =>
      let r1 := step resultString s op
      let r2 := run resultString r1.1 ops
      (r2.1, r1.2 ++ r2.2)

/-- A session state the bridge can be in: the one after some sequence of calls
from the load-time state. -/
def Reachable (resultString : MLResult → String) (s : Session) : Prop :=
  ∃ ops : List Op, (run resultString Session.fresh ops).1 = s

/-- Does this `nativeInit`, called on `s`, return false having got past
`MLPerceptionStartup`, that is at the handle-creation step or at the static-data
step? -/
def failsAfterStartup (resultString : MLResult → String) (s : Session) (a : InitAnswers) : Bool :=
  !(nativeInit resultString a s).ret && a.initSettings == MLResult_Ok && a.startup == MLResult_Ok

/-- Is the sequence of calls, made from `s`, free of a `nativeInit` that fails at
the handle-creation step or at the static-data step? -/
def cleanRun (resultString : MLResult → String) : Session → List Op → Bool
  | _, [] => true
  | s, op :: ops =>
      (match op with
        | Op.init a => !(failsAfterStartup resultString s a)
        | _ => true)
      && cleanRun resultString (step resultString s op).1 ops

/-! ## Observers on traces -/

/-- Is the event a session start? -/
def Event.isStartup : Event → Bool
  | Event.MLPerceptionStartup _ => true
  | _ => false

/-- Is the event a tracking-handle creation? -/
def Event.isCreate : Event → Bool
  | Event.MLHeadTrackingCreate _ _ => true
  | _ => false

/-- Is the event a snapshot acquisition that handed out a snapshot (reported
success and a non-null pointer)? -/
def Event.isAcquired : Event → Bool
  | Event.MLPerceptionGetPredictedSnapshot _ r snap => r = MLResult_Ok && snap != nullptr
  | _ => false

/-- Is the event a snapshot release? -/
def Event.isRelease : Event → Bool
  | Event.MLPerceptionReleaseSnapshot _ => true
  | _ => false

/-- Is the event a log line about the operation `what`: the informational
`what OK` or the error record naming `what`? -/
def Event.isLogAbout (what : String) : Event → Bool
  | Event.log (LogRecord.info text) => text = what ++ " OK"
  | Event.log (LogRecord.error w _ _) => w = what
  | _ => false

/-- Is the event an error-level log line? -/
def Event.isErrorLog : Event → Bool
  | Event.log (LogRecord.error _ _ _) => true
  | _ => false

/-! ## Sample data -/

/-- A sample error-to-string mapping of the subsystem. -/
def sampleResultString : MLResult → String :=
  fun r => if r = 1 then "MLResult_UnspecifiedFailure" else "MLResult_Other"

/-- Answers of a subsystem on which every step of `nativeInit` succeeds and the
created handle is `7`. -/
def initAllOk : InitAnswers :=
  { initSettings := 0, startup := 0, create := 0, createOut := some 7,
    staticData := 0, coord_frame_head := ⟨11, 12⟩ }

/-- A session that is ready, holding handle `7`. -/
def readySession : Session :=
  { g_ready := true, g_head := 7, g_head_cf := ⟨11, 12⟩ }

/-- The synthetic read of the layout test: position (1, 2, 3), orientation
(0, 0, 0, 1), linear velocity (0.1, 0.2, 0.3), angular velocity (0.4, 0.5, 0.6),
acquired as snapshot `0x1000`; each `float` is written as its binary32 pattern. -/
def querySynthetic : QueryAnswers :=
  { acquire := 0, snap := 0x1000, read := 0,
    t := { rotation := ⟨0x00000000, 0x00000000, 0x00000000, 0x3F800000⟩,
           position := ⟨0x3F800000, 0x40000000, 0x40400000⟩ },
    d := { linear_velocity_m_s := ⟨0x3DCCCCCD, 0x3E4CCCCD, 0x3E99999A⟩,
           angular_velocity_r_s := ⟨0x3ECCCCCD, 0x3F000000, 0x3F19999A⟩ } }

/-- The synthetic read again, except that the transform read reports failure
code `1`. -/
def queryReadFails : QueryAnswers := { querySynthetic with read := 1 }

/-- An acquisition that reports success yet hands back a null snapshot. -/
def queryNullSnapshot : QueryAnswers := { querySynthetic with snap := nullptr }

/-- An acquisition that reports failure code `1`. -/
def queryAcquireFails : QueryAnswers := { querySynthetic with acquire := 1, snap := nullptr }

/-- Answers of a subsystem on which `nativeInit` fails at its last step: the
handle `7` is created, then `MLHeadTrackingGetStaticData` reports code `1`. -/
def initStaticDataFails : InitAnswers := { initAllOk with staticData := 1 }

/-- A teardown whose `MLPerceptionShutdown` reports failure code `1`. -/
def shutdownStopFails : ShutdownAnswers := { destroy := 0, shutdown := 1 }

/-- Answers of a subsystem whose `MLPerceptionStartup` reports code `1`. -/
def initStartupFails : InitAnswers := { initAllOk with startup := 1 }

/-- A teardown on which both calls report success. -/
def shutdownOk : ShutdownAnswers := { destroy := 0, shutdown := 0 }

/-! ## Basic facts about the entry points -/

theorem nativeInit_of_ready (rs : MLResult → String) (a : InitAnswers) (s : Session)
    (h : s.g_ready = true) : nativeInit rs a s = ⟨true, s, []⟩ := by
  simp [nativeInit, h]

theorem nativeInit_ret_eq_ready (rs : MLResult → String) (a : InitAnswers) (s : Session) :
    (nativeInit rs a s).ret = (nativeInit rs a s).session.g_ready := by
  dsimp only [nativeInit]
  split_ifs <;> simp_all

/-- The events of a `nativeInit` that starts on a session that is not ready and
returns true: each of the four subsystem calls once, in order, each followed by
its log line. -/
theorem nativeInit_success_events (rs : MLResult → String) (a : InitAnswers) (s : Session)
    (hs : s.g_ready = false) (h : (nativeInit rs a s).ret = true) :
    (nativeInit rs a s).events =
      [Event.MLPerceptionInitSettings MLResult_Ok,
       Event.log (LogRecord.info "MLPerceptionInitSettings OK"),
       Event.MLPerceptionStartup MLResult_Ok,
       Event.log (LogRecord.info "MLPerceptionStartup OK"),
       Event.MLHeadTrackingCreate MLResult_Ok a.createOut,
       Event.log (LogRecord.info "MLHeadTrackingCreate OK"),
       Event.MLHeadTrackingGetStaticData (a.createOut.getD s.g_head) MLResult_Ok,
       Event.log (LogRecord.info "MLHeadTrackingGetStaticData OK"),
       Event.log (LogRecord.info "nativeInit OK")] := by
  revert h
  dsimp only [nativeInit]
  split_ifs <;> simp_all [LogML]

/-- `nativePoseAtMLTime` never writes a global. -/
theorem nativePoseAtMLTime_session (rs : MLResult → String) (a : QueryAnswers) (s : Session)
    (ml_time : Int) : (nativePoseAtMLTime rs a s ml_time).session = s := by
  dsimp only [nativePoseAtMLTime]
  split_ifs <;> rfl

/-- On each of its failure paths `nativePoseAtMLTime` returns the untouched
`buf`. -/
theorem nativePoseAtMLTime_zero (rs : MLResult → String) (a : QueryAnswers) (s : Session)
    (ml_time : Int)
    (h : s.g_ready = false ∨ a.acquire ≠ MLResult_Ok ∨ a.snap = nullptr ∨ a.read ≠ MLResult_Ok) :
    (nativePoseAtMLTime rs a s ml_time).ret = List.replicate 16 f32_zero := by
  dsimp only [nativePoseAtMLTime]
  by_cases h1 : s.g_ready = true
  · by_cases h2 : a.acquire ≠ MLResult_Ok ∨ a.snap = nullptr
    · simp [h1, h2]
      rfl
    · by_cases h3 : a.read ≠ MLResult_Ok
      · simp [h1, h2, h3]
        rfl
      · exfalso
        rcases h with h | h | h | h
        · simp [h] at h1
        · exact h2 (Or.inl h)
        · exact h2 (Or.inr h)
        · exact h3 h
  · simp [h1]
    rfl

/-- The events of a query on a ready session whose acquisition hands out a
snapshot: acquisition, read, release, then the log line of a failed read. -/
theorem nativePoseAtMLTime_acquired_events (rs : MLResult → String) (a : QueryAnswers)
    (s : Session) (ml_time : Int) (hready : s.g_ready = true) (hacq : a.acquire = MLResult_Ok)
    (hsnap : a.snap ≠ nullptr) :
    (nativePoseAtMLTime rs a s ml_time).events =
      [Event.MLPerceptionGetPredictedSnapshot ml_time MLResult_Ok a.snap,
       Event.MLSnapshotGetTransformWithDerivatives a.snap s.g_head_cf a.read,
       Event.MLPerceptionReleaseSnapshot a.snap]
      ++ (if a.read = MLResult_Ok then []
          else [Event.log (LogRecord.error "MLSnapshotGetTransformWithDerivatives" a.read
                  (rs a.read))]) := by
  by_cases hread : a.read = MLResult_Ok
  · simp [nativePoseAtMLTime, hready, hacq, hsnap, hread]
  · simp [nativePoseAtMLTime, hready, hacq, hsnap, hread, LogML]

/-- The events of a query on a ready session whose acquisition reports failure
or hands back a null snapshot: the acquisition, then what `LogML` writes for its
result code. -/
theorem nativePoseAtMLTime_not_acquired_events (rs : MLResult → String) (a : QueryAnswers)
    (s : Session) (ml_time : Int) (hready : s.g_ready = true)
    (hfail : a.acquire ≠ MLResult_Ok ∨ a.snap = nullptr) :
    (nativePoseAtMLTime rs a s ml_time).events =
      Event.MLPerceptionGetPredictedSnapshot ml_time a.acquire a.snap
        :: LogML rs "MLPerceptionGetPredictedSnapshot" a.acquire := by
  simp [nativePoseAtMLTime, hready, hfail]

/-- A log line is neither a release nor an acquisition. -/
theorem LogML_no_snapshot_event (rs : MLResult → String) (what : String) (r : MLResult) :
    (LogML rs what r).countP Event.isRelease = 0 ∧
    (LogML rs what r).countP Event.isAcquired = 0 := by
  unfold LogML
  split_ifs <;> simp [Event.isRelease, Event.isAcquired]

/-- In the events of one call there are as many releases as snapshots handed
out. -/
theorem step_release_eq_acquired (rs : MLResult → String) (s : Session) (op : Op) :
    (step rs s op).2.countP Event.isRelease = (step rs s op).2.countP Event.isAcquired := by
  cases op with
  | init a =>
    dsimp only [step, nativeInit]
    split_ifs <;>
      simp [List.countP_cons, List.countP_append, LogML_no_snapshot_event, Event.isRelease,
        Event.isAcquired]
  | shutdown a =>
    dsimp only [step, nativeShutdown]
    split_ifs <;>
      simp [List.countP_cons, List.countP_append, LogML_no_snapshot_event, Event.isRelease,
        Event.isAcquired]
  | query t a =>
    dsimp only [step]
    by_cases hready : s.g_ready = true
    · by_cases hfail : a.acquire ≠ MLResult_Ok ∨ a.snap = nullptr
      · rw [nativePoseAtMLTime_not_acquired_events rs a s t hready hfail]
        have hacq : Event.isAcquired
            (Event.MLPerceptionGetPredictedSnapshot t a.acquire a.snap) = false := by
          rcases hfail with h | h <;> simp [Event.isAcquired, h]
        simp [List.countP_cons, LogML_no_snapshot_event, Event.isRelease, hacq]
      · have hacq : a.acquire = MLResult_Ok := by
          by_contra h; exact hfail (Or.inl h)
        have hsnap : a.snap ≠ nullptr := fun h => hfail (Or.inr h)
        rw [nativePoseAtMLTime_acquired_events rs a s t hready hacq hsnap]
        split_ifs <;>
          simp [List.countP_cons, Event.isRelease, Event.isAcquired, hsnap]
    · simp [nativePoseAtMLTime, hready]

/-- In the events of a sequence of calls there are as many releases as snapshots
handed out. -/
theorem run_release_eq_acquired (rs : MLResult → String) (ops : List Op) (s : Session) :
    (run rs s ops).2.countP Event.isRelease = (run rs s ops).2.countP Event.isAcquired := by
  induction ops generalizing s with
  | nil => rfl
  | cons op ops ih =>
    simp only [run, List.countP_append]
    rw [step_release_eq_acquired, ih]

/-- Running two sequences of calls one after the other. -/
theorem run_append (rs : MLResult → String) (ops1 ops2 : List Op) (s : Session) :
    (run rs s (ops1 ++ ops2)).1 = (run rs (run rs s ops1).1 ops2).1 := by
  induction ops1 generalizing s with
  | nil => rfl
  | cons op ops ih => simp [run, ih]

/-- One call keeps "ready implies that the stored handle is valid". -/
theorem step_ready_valid (rs : MLResult → String) (s : Session) (op : Op)
    (h : s.g_ready = true → s.g_head ≠ ML_INVALID_HANDLE) :
    (step rs s op).1.g_ready = true → (step rs s op).1.g_head ≠ ML_INVALID_HANDLE := by
  cases op with
  | init a =>
    dsimp only [step, nativeInit]
    split_ifs <;> simp_all
  | shutdown a =>
    dsimp only [step, nativeShutdown]
    split_ifs <;> simp_all
  | query t a =>
    dsimp only [step]
    rw [nativePoseAtMLTime_session]
    exact h

/-- A sequence of calls keeps "ready implies that the stored handle is valid". -/
theorem run_ready_valid (rs : MLResult → String) (ops : List Op) (s : Session)
    (h : s.g_ready = true → s.g_head ≠ ML_INVALID_HANDLE) :
    (run rs s ops).1.g_ready = true → (run rs s ops).1.g_head ≠ ML_INVALID_HANDLE := by
  induction ops generalizing s with
  | nil => exact h
  | cons op ops ih => exact ih (step rs s op).1 (step_ready_valid rs s op h)

/-- In every reachable state, ready implies that the stored handle is valid. -/
theorem reachable_ready_valid (rs : MLResult → String) (s : Session) (h : Reachable rs s)
    (hready : s.g_ready = true) : s.g_head ≠ ML_INVALID_HANDLE := by
  obtain ⟨ops, rfl⟩ := h
  exact run_ready_valid rs ops Session.fresh (by simp [Session.fresh]) hready

/-- One call keeps "the stored handle is valid exactly when ready", unless it is
a `nativeInit` that fails at the handle-creation step or at the static-data
step. -/
theorem step_valid_iff_ready (rs : MLResult → String) (s : Session) (op : Op)
    (h : s.g_head ≠ ML_INVALID_HANDLE ↔ s.g_ready = true)
    (hop : ∀ a, op = Op.init a → failsAfterStartup rs s a = false) :
    (step rs s op).1.g_head ≠ ML_INVALID_HANDLE ↔ (step rs s op).1.g_ready = true := by
  cases op with
  | init a =>
    have ha := hop a rfl
    revert ha
    dsimp only [step, failsAfterStartup, nativeInit]
    split_ifs <;> simp_all
  | shutdown a =>
    dsimp only [step, nativeShutdown]
    split_ifs <;> simp_all
  | query t a =>
    dsimp only [step]
    rw [nativePoseAtMLTime_session]
    exact h

/-- A sequence of calls without a `nativeInit` that fails at the handle-creation
step or at the static-data step keeps "the stored handle is valid exactly when
ready". -/
theorem run_valid_iff_ready (rs : MLResult → String) (ops : List Op) (s : Session)
    (h : s.g_head ≠ ML_INVALID_HANDLE ↔ s.g_ready = true) (hclean : cleanRun rs s ops = true) :
    (run rs s ops).1.g_head ≠ ML_INVALID_HANDLE ↔ (run rs s ops).1.g_ready = true := by
  induction ops generalizing s with
  | nil => exact h
  | cons op ops ih =>
    simp only [cleanRun, Bool.and_eq_true] at hclean
    refine ih (step rs s op).1 (step_valid_iff_ready rs s op h ?_) hclean.2
    intro a ha
    subst ha
    simpa using hclean.1

/-- What `nativeShutdown` does on a ready session that holds a valid handle. -/
theorem nativeShutdown_of_ready (rs : MLResult → String) (a : ShutdownAnswers) (s : Session)
    (hready : s.g_ready = true) (hvalid : s.g_head ≠ ML_INVALID_HANDLE) :
    (nativeShutdown rs a s).session =
      { g_ready := false, g_head := ML_INVALID_HANDLE, g_head_cf := s.g_head_cf } ∧
    (nativeShutdown rs a s).events =
      [Event.MLHeadTrackingDestroy s.g_head, Event.MLPerceptionShutdown a.shutdown]
        ++ LogML rs "MLPerceptionShutdown" a.shutdown
        ++ [Event.log (LogRecord.info "nativeShutdown OK")] := by
  simp [nativeShutdown, hready, hvalid]

/-! ## The claims -/

/-- C1: for every starting session state and every combination of answers of the
subsystem calls, `nativeInit` returns true exactly when `g_ready` holds on
return, and returns false exactly when `g_ready` does not hold on return. -/
theorem nativeInit_true_iff_ready (rs : MLResult → String) (a : InitAnswers) (s : Session) :
    ((nativeInit rs a s).ret = true ↔ (nativeInit rs a s).session.g_ready = true) ∧
    ((nativeInit rs a s).ret = false ↔ (nativeInit rs a s).session.g_ready = false) := by
  rw [nativeInit_ret_eq_ready]
  exact ⟨Iff.rfl, Iff.rfl⟩

/-- C2: on every session state that is ready, `nativeInit` returns true, produces
no event at all (no subsystem call, no log line) and leaves the globals as they
were; and whenever a first `nativeInit` returns true, a second one right after
it returns true, produces no event and changes nothing, so that, the first call
having started from a state that was not ready, the two calls together perform
exactly one `MLPerceptionStartup` and exactly one `MLHeadTrackingCreate`. -/
theorem nativeInit_idempotent (rs : MLResult → String) (a1 a2 : InitAnswers) (s : Session) :
    (s.g_ready = true →
      (nativeInit rs a1 s).ret = true ∧ (nativeInit rs a1 s).events = [] ∧
      (nativeInit rs a1 s).session = s) ∧
    ((nativeInit rs a1 s).ret = true →
      (nativeInit rs a2 (nativeInit rs a1 s).session).ret = true ∧
      (nativeInit rs a2 (nativeInit rs a1 s).session).events = [] ∧
      (nativeInit rs a2 (nativeInit rs a1 s).session).session = (nativeInit rs a1 s).session ∧
      (s.g_ready = false →
        ((nativeInit rs a1 s).events
          ++ (nativeInit rs a2 (nativeInit rs a1 s).session).events).countP Event.isStartup = 1 ∧
        ((nativeInit rs a1 s).events
          ++ (nativeInit rs a2 (nativeInit rs a1 s).session).events).countP Event.isCreate = 1)) := by
  refine ⟨fun h => by simp [nativeInit_of_ready rs a1 s h], fun h1 => ?_⟩
  have hready : (nativeInit rs a1 s).session.g_ready = true := by
    rw [← nativeInit_ret_eq_ready]; exact h1
  rw [nativeInit_of_ready rs a2 _ hready]
  refine ⟨rfl, rfl, rfl, fun hs => ?_⟩
  rw [nativeInit_success_events rs a1 s hs h1]
  simp [List.countP_cons, Event.isStartup, Event.isCreate]

/-- Witness of C2: on a fresh bridge with a subsystem that succeeds at every
step. -/
theorem nativeInit_idempotent_witness :
    (nativeInit sampleResultString initAllOk Session.fresh).ret = true ∧
    (nativeInit sampleResultString initAllOk
      (nativeInit sampleResultString initAllOk Session.fresh).session).ret = true ∧
    ((nativeInit sampleResultString initAllOk Session.fresh).events
      ++ (nativeInit sampleResultString initAllOk
        (nativeInit sampleResultString initAllOk Session.fresh).session).events).countP
          Event.isStartup = 1 ∧
    (nativeInit sampleResultString initAllOk readySession).events = [] :=
  have h1 : (nativeInit sampleResultString initAllOk Session.fresh).ret = true := by decide
  have h := (nativeInit_idempotent sampleResultString initAllOk initAllOk Session.fresh).2 h1
  ⟨h1, h.1, (h.2.2.2 rfl).1,
    ((nativeInit_idempotent sampleResultString initAllOk initAllOk readySession).1 rfl).2.1⟩

/-- C8: on every session state that is not ready, `nativeShutdown` produces no
event at all (no handle destroy, no session stop, no log line), leaves the three
globals as they were and returns normally. -/
theorem nativeShutdown_noop (rs : MLResult → String) (a : ShutdownAnswers) (s : Session)
    (h : s.g_ready = false) :
    (nativeShutdown rs a s).events = [] ∧ (nativeShutdown rs a s).session = s ∧
    (nativeShutdown rs a s).ret = () := by
  simp [nativeShutdown, h]

/-- Witness of C8: shutting down a fresh bridge. -/
theorem nativeShutdown_noop_witness :
    Session.fresh.g_ready = false ∧
    (nativeShutdown sampleResultString ⟨0, 1⟩ Session.fresh).events = [] ∧
    (nativeShutdown sampleResultString ⟨0, 1⟩ Session.fresh).session = Session.fresh ∧
    (nativeShutdown sampleResultString ⟨0, 1⟩ Session.fresh).ret = () :=
  ⟨rfl, nativeShutdown_noop sampleResultString ⟨0, 1⟩ Session.fresh rfl⟩

/-- C3: on every ready session and for every timestamp, when the acquisition
reports success with a non-null snapshot and the read reports success with
transform `t` and derivatives `d`, `nativePoseAtMLTime` returns the 16 slots
position x, y, z; rotation x, y, z, w; linear velocity x, y, z; angular velocity
x, y, z; `1.0f`; `0`; `0`, each value being the one delivered by the read. -/
theorem nativePoseAtMLTime_layout (rs : MLResult → String) (a : QueryAnswers) (s : Session)
    (ml_time : Int) (hready : s.g_ready = true) (hacq : a.acquire = MLResult_Ok)
    (hsnap : a.snap ≠ nullptr) (hread : a.read = MLResult_Ok) :
    (nativePoseAtMLTime rs a s ml_time).ret =
      [a.t.position.x, a.t.position.y, a.t.position.z,
       a.t.rotation.x, a.t.rotation.y, a.t.rotation.z, a.t.rotation.w,
       a.d.linear_velocity_m_s.x, a.d.linear_velocity_m_s.y, a.d.linear_velocity_m_s.z,
       a.d.angular_velocity_r_s.x, a.d.angular_velocity_r_s.y, a.d.angular_velocity_r_s.z,
       f32_one, f32_zero, f32_zero] := by
  simp [nativePoseAtMLTime, hready, hacq, hsnap, hread, zeroBuf, List.replicate, List.set]

/-- Witness of C3: the synthetic read with position (1, 2, 3), orientation
(0, 0, 0, 1), linear velocity (0.1, 0.2, 0.3) and angular velocity
(0.4, 0.5, 0.6), as binary32 patterns. -/
theorem nativePoseAtMLTime_layout_witness :
    (nativePoseAtMLTime sampleResultString querySynthetic readySession 123456789).ret =
      [0x3F800000, 0x40000000, 0x40400000,
       0x00000000, 0x00000000, 0x00000000, 0x3F800000,
       0x3DCCCCCD, 0x3E4CCCCD, 0x3E99999A,
       0x3ECCCCCD, 0x3F000000, 0x3F19999A,
       0x3F800000, 0, 0] :=
  nativePoseAtMLTime_layout sampleResultString querySynthetic readySession 123456789
    rfl rfl (by decide) rfl

/-- C4: for every session state, timestamp and answers of the subsystem, if the
session is not ready, or the acquisition reports failure, or it yields a null
snapshot, or the transform read reports failure, then `nativePoseAtMLTime`
returns normally a record of 16 slots that are all zero, in particular slots
0-12 and 14-15, and leaves the globals as they were; when the session is not
ready it produces no event at all. -/
theorem nativePoseAtMLTime_fail_soft (rs : MLResult → String) (a : QueryAnswers) (s : Session)
    (ml_time : Int)
    (h : s.g_ready = false ∨ a.acquire ≠ MLResult_Ok ∨ a.snap = nullptr ∨ a.read ≠ MLResult_Ok) :
    (nativePoseAtMLTime rs a s ml_time).ret.length = 16 ∧
    (∀ i, i < 16 → i ≠ 13 → (nativePoseAtMLTime rs a s ml_time).ret[i]? = some f32_zero) ∧
    (nativePoseAtMLTime rs a s ml_time).ret = List.replicate 16 f32_zero ∧
    (nativePoseAtMLTime rs a s ml_time).session = s ∧
    (s.g_ready = false → (nativePoseAtMLTime rs a s ml_time).events = []) := by
  have hret : (nativePoseAtMLTime rs a s ml_time).ret = List.replicate 16 f32_zero :=
    nativePoseAtMLTime_zero rs a s ml_time h
  refine ⟨by rw [hret]; rfl, fun i hi _ => ?_, hret, nativePoseAtMLTime_session rs a s ml_time,
    fun hs => by simp [nativePoseAtMLTime, hs]⟩
  rw [hret, List.getElem?_replicate]
  simp [hi]

/-- Witness of C4: a ready session whose transform read fails. -/
theorem nativePoseAtMLTime_fail_soft_witness :
    (nativePoseAtMLTime sampleResultString queryReadFails readySession 5).ret
      = List.replicate 16 f32_zero ∧
    (nativePoseAtMLTime sampleResultString queryReadFails Session.fresh 5).events = [] :=
  ⟨(nativePoseAtMLTime_fail_soft sampleResultString queryReadFails readySession 5
      (Or.inr (Or.inr (Or.inr (by decide))))).2.2.1,
   (nativePoseAtMLTime_fail_soft sampleResultString queryReadFails Session.fresh 5
      (Or.inl rfl)).2.2.2.2 rfl⟩

/-- C5: on every ready session, when the acquisition reports success with a
non-null snapshot, the events of the query are the acquisition, the read, then
the release of that very snapshot, followed only by the error line of a failed
read; so the snapshot is released exactly once, after the read, whether the read
succeeds or fails. And after any sequence of calls from any state the number of
releases equals the number of snapshots handed out. -/
theorem snapshot_released_exactly_once (rs : MLResult → String) :
    (∀ (a : QueryAnswers) (s : Session) (ml_time : Int),
      s.g_ready = true → a.acquire = MLResult_Ok → a.snap ≠ nullptr →
      (nativePoseAtMLTime rs a s ml_time).events =
        [Event.MLPerceptionGetPredictedSnapshot ml_time MLResult_Ok a.snap,
         Event.MLSnapshotGetTransformWithDerivatives a.snap s.g_head_cf a.read,
         Event.MLPerceptionReleaseSnapshot a.snap]
        ++ (if a.read = MLResult_Ok then []
            else [Event.log (LogRecord.error "MLSnapshotGetTransformWithDerivatives" a.read
                    (rs a.read))]) ∧
      (nativePoseAtMLTime rs a s ml_time).events.countP Event.isRelease = 1 ∧
      (nativePoseAtMLTime rs a s ml_time).events.count
        (Event.MLPerceptionReleaseSnapshot a.snap) = 1) ∧
    (∀ (s : Session) (ops : List Op),
      (run rs s ops).2.countP Event.isRelease = (run rs s ops).2.countP Event.isAcquired) := by
  refine ⟨fun a s t hready hacq hsnap => ?_, fun s ops => run_release_eq_acquired rs ops s⟩
  rw [nativePoseAtMLTime_acquired_events rs a s t hready hacq hsnap]
  refine ⟨rfl, ?_, ?_⟩
  · split_ifs <;> simp [List.countP_cons, Event.isRelease]
  · split_ifs <;> simp [List.count_cons]

/-- Witness of C5: a ready session whose transform read fails still releases the
snapshot `0x1000` once, and a run of four queries releases as many snapshots as
were handed out. -/
theorem snapshot_released_exactly_once_witness :
    (nativePoseAtMLTime sampleResultString queryReadFails readySession 5).events.count
      (Event.MLPerceptionReleaseSnapshot 0x1000) = 1 ∧
    (run sampleResultString readySession
      [Op.query 1 querySynthetic, Op.query 2 queryReadFails, Op.query 3 queryNullSnapshot,
       Op.query 4 queryAcquireFails]).2.countP Event.isRelease =
    (run sampleResultString readySession
      [Op.query 1 querySynthetic, Op.query 2 queryReadFails, Op.query 3 queryNullSnapshot,
       Op.query 4 queryAcquireFails]).2.countP Event.isAcquired :=
  ⟨((snapshot_released_exactly_once sampleResultString).1 queryReadFails readySession 5
      rfl rfl (by decide)).2.2,
   (snapshot_released_exactly_once sampleResultString).2 readySession _⟩

/-- C7: from every reachable session state, for every timestamp and whatever
`MLPerceptionShutdown` reports, after a `nativeInit` that returns true followed
by `nativeShutdown` the session is not ready, the handle that was held has been
passed to `MLHeadTrackingDestroy` exactly once and `g_head` is the invalid
sentinel, and a `nativePoseAtMLTime` after that returns what it returns on a
bridge that was never set up, the sixteen zeroes, without any event (hence
without acquiring a snapshot). -/
theorem post_shutdown_query_safe (rs : MLResult → String) (ai : InitAnswers)
    (ad : ShutdownAnswers) (aq aq0 : QueryAnswers) (s : Session) (ml_time : Int)
    (hs : Reachable rs s) (hinit : (nativeInit rs ai s).ret = true) :
    (nativeShutdown rs ad (nativeInit rs ai s).session).session.g_ready = false ∧
    (nativeInit rs ai s).session.g_head ≠ ML_INVALID_HANDLE ∧
    (nativeShutdown rs ad (nativeInit rs ai s).session).events.count
      (Event.MLHeadTrackingDestroy (nativeInit rs ai s).session.g_head) = 1 ∧
    (nativeShutdown rs ad (nativeInit rs ai s).session).session.g_head = ML_INVALID_HANDLE ∧
    (nativePoseAtMLTime rs aq
      (nativeShutdown rs ad (nativeInit rs ai s).session).session ml_time).ret =
      (nativePoseAtMLTime rs aq0 Session.fresh ml_time).ret ∧
    (nativePoseAtMLTime rs aq
      (nativeShutdown rs ad (nativeInit rs ai s).session).session ml_time).ret =
      List.replicate 16 f32_zero ∧
    (nativePoseAtMLTime rs aq
      (nativeShutdown rs ad (nativeInit rs ai s).session).session ml_time).events = [] := by
  have hready : (nativeInit rs ai s).session.g_ready = true := by
    rw [← nativeInit_ret_eq_ready]; exact hinit
  have hreach : Reachable rs (nativeInit rs ai s).session := by
    obtain ⟨ops, rfl⟩ := hs
    exact ⟨ops ++ [Op.init ai], by simp [run_append, run, step]⟩
  have hvalid := reachable_ready_valid rs _ hreach hready
  obtain ⟨hsess, hev⟩ := nativeShutdown_of_ready rs ad _ hready hvalid
  have hnot : (nativeShutdown rs ad (nativeInit rs ai s).session).session.g_ready = false := by
    rw [hsess]
  refine ⟨hnot, hvalid, ?_, by rw [hsess], ?_, ?_, ?_⟩
  · rw [hev]
    unfold LogML
    split_ifs <;> simp [List.count_cons]
  · rw [nativePoseAtMLTime_zero rs aq _ ml_time (Or.inl hnot),
      nativePoseAtMLTime_zero rs aq0 Session.fresh ml_time (Or.inl rfl)]
  · exact nativePoseAtMLTime_zero rs aq _ ml_time (Or.inl hnot)
  · simp [nativePoseAtMLTime, hnot]

/-- Witness of C7: a fresh bridge, a subsystem that succeeds at every step of
`nativeInit`, a teardown whose stop reports failure, then a query for which the
subsystem would have had a pose. -/
theorem post_shutdown_query_safe_witness :
    (nativeInit sampleResultString initAllOk Session.fresh).ret = true ∧
    (nativeShutdown sampleResultString shutdownStopFails
      (nativeInit sampleResultString initAllOk Session.fresh).session).session.g_ready = false ∧
    (nativePoseAtMLTime sampleResultString querySynthetic
      (nativeShutdown sampleResultString shutdownStopFails
        (nativeInit sampleResultString initAllOk Session.fresh).session).session 42).ret =
      List.replicate 16 f32_zero :=
  have h1 : (nativeInit sampleResultString initAllOk Session.fresh).ret = true := by decide
  have h := post_shutdown_query_safe sampleResultString initAllOk shutdownStopFails
    querySynthetic querySynthetic Session.fresh 42 ⟨[], rfl⟩ h1
  ⟨h1, h.1, h.2.2.2.2.2.1⟩

/-- C6, as stated, fails: on a fresh bridge a `nativeInit` whose
`MLHeadTrackingCreate` stores handle `7` and whose `MLHeadTrackingGetStaticData`
then reports failure returns false and leaves `g_ready = false` with
`g_head = 7`, a valid handle held while not ready; so "valid exactly when ready"
does not hold in every reachable state. -/
theorem handle_valid_iff_ready_counterexample :
    (nativeInit sampleResultString initStaticDataFails Session.fresh).ret = false ∧
    (run sampleResultString Session.fresh [Op.init initStaticDataFails]).1
      = { g_ready := false, g_head := 7, g_head_cf := ⟨0, 0⟩ } ∧
    (7 : MLHandle) ≠ ML_INVALID_HANDLE ∧
    ¬ (∀ s : Session, Reachable sampleResultString s →
        (s.g_head ≠ ML_INVALID_HANDLE ↔ s.g_ready = true)) := by
  refine ⟨by decide, by decide, by decide, fun h => ?_⟩
  have h7 := h { g_ready := false, g_head := 7, g_head_cf := ⟨0, 0⟩ }
    ⟨[Op.init initStaticDataFails], by decide⟩
  revert h7
  decide

/-- C6, amended: in every session state reachable from the load-time state by
any sequence of `nativeInit`, `nativeShutdown` and `nativePoseAtMLTime` calls
under any answers of the subsystem, ready implies that the stored tracking handle
is valid; and in every state reached by a sequence in which no `nativeInit`
fails at the handle-creation step or at the static-data step, the stored handle
is valid exactly when the session is ready. -/
theorem ready_implies_handle_valid (rs : MLResult → String) :
    (∀ s : Session, Reachable rs s → s.g_ready = true → s.g_head ≠ ML_INVALID_HANDLE) ∧
    (∀ ops : List Op, cleanRun rs Session.fresh ops = true →
      ((run rs Session.fresh ops).1.g_head ≠ ML_INVALID_HANDLE ↔
        (run rs Session.fresh ops).1.g_ready = true)) :=
  ⟨fun s hs hready => reachable_ready_valid rs s hs hready,
   fun ops hclean => run_valid_iff_ready rs ops Session.fresh (by decide) hclean⟩

/-- Witness of C6 amended: a failed start, a successful setup, a query, and (in
the second run) a teardown after them. -/
theorem ready_implies_handle_valid_witness :
    ((run sampleResultString Session.fresh
        [Op.init initStartupFails, Op.init initAllOk, Op.query 1 querySynthetic]).1.g_head
      ≠ ML_INVALID_HANDLE) ∧
    ((run sampleResultString Session.fresh
        [Op.init initStartupFails, Op.init initAllOk, Op.query 1 querySynthetic,
         Op.shutdown shutdownOk]).1.g_head ≠ ML_INVALID_HANDLE ↔
      (run sampleResultString Session.fresh
        [Op.init initStartupFails, Op.init initAllOk, Op.query 1 querySynthetic,
         Op.shutdown shutdownOk]).1.g_ready = true) :=
  ⟨(ready_implies_handle_valid sampleResultString).1 _ ⟨_, rfl⟩ (by decide),
   (ready_implies_handle_valid sampleResultString).2 _ (by decide)⟩

/-- C10, at the failing input: on a ready session, when
`MLPerceptionGetPredictedSnapshot` reports `MLResult_Ok` but leaves `snap` null,
the sixteen zeroes are returned and exactly one line is logged for the
acquisition, and that line is the informational
`MLPerceptionGetPredictedSnapshot OK`: no error-level record is written. -/
theorem null_snapshot_logged_as_ok :
    (nativePoseAtMLTime sampleResultString queryNullSnapshot readySession 5).events =
      [Event.MLPerceptionGetPredictedSnapshot 5 MLResult_Ok nullptr,
       Event.log (LogRecord.info "MLPerceptionGetPredictedSnapshot OK")] ∧
    (nativePoseAtMLTime sampleResultString queryNullSnapshot readySession 5).events.countP
      (Event.isLogAbout "MLPerceptionGetPredictedSnapshot") = 1 ∧
    (nativePoseAtMLTime sampleResultString queryNullSnapshot readySession 5).events.countP
      Event.isErrorLog = 0 ∧
    (nativePoseAtMLTime sampleResultString queryNullSnapshot readySession 5).ret =
      List.replicate 16 f32_zero := by
  refine ⟨by decide, by decide, by decide, by decide⟩

end ML2NativeRecorder
